import Mathlib

/-!
Verification of the upload workflow in src/commands/upload.ts of
yurivangeffen/mapbox-utils.

The workflow is sequential glue over external HTTP and storage services, so
the embedding is parameterised by an environment (`Env`) that supplies the
outcome of every external call: the file read, the credentials request, the
storage put, the upload-start request, and the list of poll responses.
Exceptions (`throw` caught by the single outer `try/catch`) are modelled with
`Except String`; the JavaScript value `undefined`, which the poll loop tests
for in the `progress` field, is modelled with `Option`; poll `progress`
values are rationals.  One path is special: a storage error cannot reach the
outer catch, because the Promise wrapped around putObject binds no reject and
the rethrow runs in the asynchronously invoked SDK callback — the promise
never settles and the run hangs at that await (`RunOutcome.hangs`).  Each run
additionally produces a trace of the external calls it issued, in order, so
that ordering and non-invocation properties can be stated.
-/

namespace MapboxUtils

/-- The Credentials record of upload.ts (lines 7-14). -/
structure Credentials where
  bucket : String
  key : String
  accessKeyId : String
  secretAccessKey : String
  sessionToken : String
  url : String
deriving DecidableEq

/-- The Upload record of upload.ts (lines 16-20): the request body sent to
the upload-start endpoint. -/
structure Upload where
  url : String
  tileset : String
  name : String
deriving DecidableEq

/-- The UploadProcessing record of upload.ts (lines 22-32): the body of the
upload-start response.  The field error has TypeScript type string or null;
null is modelled as none.  The progress field is typed number in the source
but may be absent at runtime (the loop guards progress against undefined),
so it is modelled as an Option. -/
structure UploadProcessing where
  complete : Bool
  tileset : String
  error : Option String
  id : String
  name : String
  modified : String
  created : String
  owner : String
  progress : Option ℚ
deriving DecidableEq

/-- The ProcessStatus record of upload.ts (lines 34-44): the body of a poll
response.  Declared separately in the source, with the same fields as
UploadProcessing. -/
structure ProcessStatus where
  complete : Bool
  tileset : String
  error : Option String
  id : String
  name : String
  modified : String
  created : String
  owner : String
  progress : Option ℚ
deriving DecidableEq

/-- An HTTP response as seen through axios: a status code, a status text and
a parsed body. -/
structure HttpResponse (α : Type) where
  status : Nat
  statusText : String
  data : α
deriving DecidableEq

/-- The environment supplies the outcome of every external call one run can
make.  For the HTTP calls an `Except.error` models the call itself throwing
(network failure) and an `Except.ok` carries the response.  `s3Result` is
what the storage layer passes to the putObject callback: `Except.error e`
means the callback receives the error e, `Except.ok` that it receives a
success.  `pollResults` is the (finite prefix of the) stream of responses the
status endpoint would give. -/
structure Env where
  fileResult : Except String String
  credentialsResult : Except String (HttpResponse Credentials)
  s3Result : Except String Unit
  startResult : Except String (HttpResponse UploadProcessing)
  pollResults : List (Except String (HttpResponse ProcessStatus))

/-- credentialsUrl of upload.ts (lines 48-49). -/
def credentialsUrl (username token : String) : String :=
  "https://api.mapbox.com/uploads/v1/" ++ username ++ "/credentials?access_token=" ++ token

/-- uploadUrl of upload.ts (lines 51-52). -/
def uploadUrl (username token : String) : String :=
  "https://api.mapbox.com/uploads/v1/" ++ username ++ "?access_token=" ++ token

/-- fileUrl of upload.ts (lines 54-55). -/
def fileUrl (bucket key : String) : String :=
  "http://" ++ bucket ++ ".s3.amazonaws.com/" ++ key

/-- uploadStatusUrl of upload.ts (lines 57-58). -/
def uploadStatusUrl (username uploadId token : String) : String :=
  "https://api.mapbox.com/uploads/v1/" ++ username ++ "/" ++ uploadId ++ "?access_token=" ++ token

/-- JavaScript truthiness of a string-or-null(-or-undefined) value, as tested
by `if (processStatus.error)` on line 100: null and undefined are falsy, and
so is the empty string. -/
def jsTruthy : Option String → Bool
  | none => false
  | some s => s != ""

/-- One external call issued during a run, recorded in the trace. -/
inductive Event where
  | readFile : Event
  | fetchCredentials : Event
  | putObject (bucket key : String) : Event
  | startUpload (body : Upload) : Event
  | getStatus (uploadId : String) : Event
  | delayMs (ms : Nat) : Event
deriving DecidableEq

/-- fetchCredentials of upload.ts (lines 146-157): POST the credentials URL;
throw on a status other than 200, with the status code and text in the
message; otherwise return the body as Credentials. -/
def fetchCredentials (env : Env) (username token : String) : Except String Credentials :=
  let _url := credentialsUrl username token
  match env.credentialsResult with
  | .error e => .error e
  | .ok credentials =>
    if credentials.status ≠ 200 then
      .error ("Could not fetch upload credentials, status: " ++ toString credentials.status
        ++ ": " ++ credentials.statusText ++ ".")
    else
      .ok credentials.data

/-- uploadToS3 of upload.ts (lines 124-144): one putObject call with the
temporary credentials, awaited through a Promise whose executor binds only
resolve — no reject is ever available.  On success the callback resolves the
promise, so the await completes and returns.  On a storage error the
callback's rethrow (line 139) runs in the asynchronously invoked SDK
callback, after the executor has already returned: it cannot reject the
promise and cannot reach the awaiting caller's try/catch, so the promise
never settles and the await never completes — modelled as none.  The thrown
error surfaces only as an uncaught asynchronous exception outside the
workflow. -/
def uploadToS3 (env : Env) (_credentials : Credentials) : Option Unit :=
  match env.s3Result with
  | .error _ => none
  | .ok u => some u

/-- The UploadRequest body built by startUpload of upload.ts (lines 167-171):
url from fileUrl, tileset written as username, a dot, then slug, and the
display name, all without further transformation. -/
def mkUpload (username slug name bucket key : String) : Upload :=
  { url := fileUrl bucket key
    tileset := username ++ "." ++ slug
    name := name }

/-- startUpload of upload.ts (lines 159-186): POST the Upload body to the
upload URL; throw on a status other than 201; otherwise return the body as
UploadProcessing. -/
def startUpload (env : Env) (username slug name bucket key token : String) :
    Except String UploadProcessing :=
  let _upload := mkUpload username slug name bucket key
  let _url := uploadUrl username token
  match env.startResult with
  | .error e => .error e
  | .ok credentials =>
    if credentials.status ≠ 201 then
      .error ("Could not start upload processing: " ++ toString credentials.status
        ++ ": " ++ credentials.statusText ++ ".")
    else
      .ok credentials.data

/-- getUploadStatus of upload.ts (lines 188-208), applied to one response
supplied by the environment: throw on a status other than 200 (the message of
the source reads "Could processing status"), otherwise return the body. -/
def getUploadStatus (r : Except String (HttpResponse ProcessStatus)) :
    Except String ProcessStatus :=
  match r with
  | .error e => .error e
  | .ok uploadStatus =>
    if uploadStatus.status ≠ 200 then
      .error ("Could processing status: " ++ toString uploadStatus.status
        ++ ": " ++ uploadStatus.statusText ++ ".")
    else
      .ok uploadStatus.data

/-- The message of processSpinner.succeed on line 110 of upload.ts. -/
def doneMessage (name tileset : String) : String :=
  "Done processing upload " ++ name ++ " (" ++ tileset
    ++ "). Check MapBox Studio for the resulting tileset."

/-- The message of processSpinner.fail on line 101 of upload.ts. -/
def pollErrorMessage (name tileset err : String) : String :=
  "Error occurred while processing " ++ name ++ " (" ++ tileset ++ "): " ++ err ++ "."

/-- The message of the ora call on lines 113-115 of upload.ts. -/
def noWaitMessage : String :=
  "Not waiting on process to finish. Check MapBox Studio for the progress."

/-- Outcome of the polling loop: a value returned from inside the loop or
after it, an exception propagating to the outer catch, or the model running
out of supplied poll responses while the source loop would keep polling. -/
inductive PollOutcome where
  | done (code : Int) (msg : Option String) : PollOutcome
  | thrown (msg : String) : PollOutcome
  | outOfResponses : PollOutcome
deriving DecidableEq

/-- The while loop of upload.ts lines 98-108, started with the current value
of the local `progress`.  The guard is progress different from undefined and
progress below 1.  Each iteration queries the status endpoint; a thrown
status error propagates; a truthy error field returns -1 with the failure
message; otherwise progress is overwritten with the progress of the response
and a 1000 ms delay runs before the next guard check.  After the loop exits,
line 110-111 report success and return 0. -/
def pollLoop (name tileset uploadId : String) (progress : Option ℚ)
    (responses : List (Except String (HttpResponse ProcessStatus))) :
    PollOutcome × List Event :=
  match progress with
  | none => (.done 0 (some (doneMessage name tileset)), [])
  | some p =>
    if p < 1 then
      match responses with
      | [] => (.outOfResponses, [])
      | r :: rest =>
        match getUploadStatus r with
        | .error e => (.thrown e, [.getStatus uploadId])
        | .ok processStatus =>
          if jsTruthy processStatus.error then
            (.done (-1)
              (some (pollErrorMessage name tileset (processStatus.error.getD ""))),
             [.getStatus uploadId])
          else
            let next := pollLoop name tileset uploadId processStatus.progress rest
            (next.1, .getStatus uploadId :: .delayMs 1000 :: next.2)
    else
      (.done 0 (some (doneMessage name tileset)), [])

/-- Outcome of one whole run of upload: a value returned to the caller with
the message reported for it (console.error of the catch, or the final
spinner message); a hang, when the run awaits a promise that never settles
(the storage-error path, where control never comes back to upload); or the
model running out of supplied poll responses while the source loop would
keep polling. -/
inductive RunOutcome where
  | returns (code : Int) (msg : Option String) : RunOutcome
  | hangs : RunOutcome
  | outOfResponses : RunOutcome
deriving DecidableEq

/-- upload of upload.ts (lines 60-122).  Returns the run outcome and the
trace of external calls.  A storage error makes the awaited putObject promise
unsettleable (see uploadToS3), so the run hangs at that await: the outer
catch never receives the storage error and no later stage runs. -/
def upload (env : Env) (_source name slug username token : String)
    (awaitProcessing : Bool) :
    RunOutcome × List Event :=
  match env.fileResult with
  | .error e => (.returns (-1) (some e), [.readFile])
  | .ok _file =>
    match fetchCredentials env username token with
    | .error e => (.returns (-1) (some e), [.readFile, .fetchCredentials])
    | .ok credentials =>
      match uploadToS3 env credentials with
      | none =>
        (.hangs,
         [.readFile, .fetchCredentials, .putObject credentials.bucket credentials.key])
      | some _ =>
        let body := mkUpload username slug name credentials.bucket credentials.key
        match startUpload env username slug name credentials.bucket credentials.key token with
        | .error e =>
          (.returns (-1) (some e),
           [.readFile, .fetchCredentials,
            .putObject credentials.bucket credentials.key, .startUpload body])
        | .ok processing =>
          let id := processing.id
          let pre : List Event :=
            [.readFile, .fetchCredentials,
             .putObject credentials.bucket credentials.key, .startUpload body]
          if awaitProcessing then
            let res := pollLoop name processing.tileset id (some 0) env.pollResults
            match res.1 with
            | .done code msg => (.returns code msg, pre ++ res.2)
            | .thrown e => (.returns (-1) (some e), pre ++ res.2)
            | .outOfResponses => (.outOfResponses, pre ++ res.2)
          else
            (.returns 0 (some noWaitMessage), pre)

/-- Recogniser for status-query events. -/
def isGetStatus : Event → Bool
  | .getStatus _ => true
  | _ => false

/-- Recogniser for delay events. -/
def isDelay : Event → Bool
  | .delayMs _ => true
  | _ => false

/-- Number of status queries a trace records. -/
def queryCount (evs : List Event) : Nat := (evs.filter isGetStatus).length

/-- Number of delays a trace records. -/
def delayCount (evs : List Event) : Nat := (evs.filter isDelay).length

/-- The three workflow stages whose ordering the spec constrains. -/
inductive StageKind where
  | fetch : StageKind
  | put : StageKind
  | start : StageKind
deriving DecidableEq

/-- The stage, if any, an event belongs to. -/
def stageOf : Event → Option StageKind
  | .fetchCredentials => some .fetch
  | .putObject _ _ => some .put
  | .startUpload _ => some .start
  | _ => none

/-- The sequence of workflow stages a trace records, in order. -/
def stageSeq (evs : List Event) : List StageKind := evs.filterMap stageOf

/-- A poll-response body with its complete field forced to false; two bodies
that agree everywhere except complete scrub to the same value. -/
def scrubComplete (ps : ProcessStatus) : ProcessStatus := { ps with complete := false }

/-- scrubComplete lifted to one environment-supplied poll outcome. -/
def scrubResp : Except String (HttpResponse ProcessStatus) →
    Except String (HttpResponse ProcessStatus)
  | .error e => .error e
  | .ok r => .ok { r with data := scrubComplete r.data }

/-- A poll response on which the source loop keeps polling: HTTP 200, a falsy
error field, and a progress value below 1. -/
def ContinuesPoll (r : Except String (HttpResponse ProcessStatus)) : Prop :=
  ∃ st ps, r = .ok ⟨200, st, ps⟩ ∧ jsTruthy ps.error = false ∧
    ∃ q : ℚ, ps.progress = some q ∧ q < 1

/-! Concrete sample data for closed-form runs. -/

/-- Sample credentials returned by the credentials endpoint. -/
def sampleCreds : Credentials :=
  { bucket := "bkt", key := "ky", accessKeyId := "ak"
    secretAccessKey := "sk", sessionToken := "stk", url := "u" }

/-- Sample initial job snapshot returned by the upload-start endpoint. -/
def sampleProc : UploadProcessing :=
  { complete := false, tileset := "ts", error := none, id := "jid"
    name := "nm", modified := "", created := "", owner := "", progress := some 0 }

/-- A poll-response body with the given error and progress fields. -/
def mkPS (error : Option String) (progress : Option ℚ) : ProcessStatus :=
  { complete := false, tileset := "ts", error := error, id := "jid"
    name := "nm", modified := "", created := "", owner := "", progress := progress }

/-- Environment of the three-response success scenario of the spec: poll
progress 0.2, then 0.6, then 1.0, all with a null error. -/
def env3 : Env :=
  { fileResult := .ok "data"
    credentialsResult := .ok ⟨200, "OK", sampleCreds⟩
    s3Result := .ok ()
    startResult := .ok ⟨201, "Created", sampleProc⟩
    pollResults := [.ok ⟨200, "OK", mkPS none (some (Rat.mk' 1 5))⟩,
                    .ok ⟨200, "OK", mkPS none (some (Rat.mk' 3 5))⟩,
                    .ok ⟨200, "OK", mkPS none (some 1)⟩] }

/-- A poll-response body whose error field is non-null but empty, hence falsy
for the truthiness test of line 100; progress 0.5. -/
def psEmptyError : ProcessStatus := mkPS (some "") (some (Rat.mk' 1 2))

/-- Environment whose first poll response carries the non-null empty error
and whose second reports completion. -/
def envC1cex : Env :=
  { fileResult := .ok "data"
    credentialsResult := .ok ⟨200, "OK", sampleCreds⟩
    s3Result := .ok ()
    startResult := .ok ⟨201, "Created", sampleProc⟩
    pollResults := [.ok ⟨200, "OK", psEmptyError⟩,
                    .ok ⟨200, "OK", mkPS none (some 1)⟩] }

/-! Lemmas about the polling loop and traces. -/

/-- Query counts add over trace concatenation. -/
theorem queryCount_append (a b : List Event) :
    queryCount (a ++ b) = queryCount a + queryCount b := by
  simp [queryCount, List.filter_append]

/-- Delay counts add over trace concatenation. -/
theorem delayCount_append (a b : List Event) :
    delayCount (a ++ b) = delayCount a + delayCount b := by
  simp [delayCount, List.filter_append]

/-- Every event the polling loop emits is a status query or a delay. -/
theorem pollLoop_events (n t i : String) :
    ∀ (rs : List (Except String (HttpResponse ProcessStatus))) (p : Option ℚ),
    ∀ e ∈ (pollLoop n t i p rs).2, isGetStatus e = true ∨ isDelay e = true := by
  intro rs
  induction rs with
  | nil =>
    intro p e he
    cases p with
    | none => simp [pollLoop] at he
    | some q =>
      by_cases hq : q < 1 <;> simp [pollLoop, hq] at he
  | cons r rest ih =>
    intro p e he
    cases p with
    | none => simp [pollLoop] at he
    | some q =>
      by_cases hq : q < 1
      · rcases hgs : getUploadStatus r with e0 | ps
        · simp [pollLoop, hq, hgs] at he
          subst he
          simp [isGetStatus]
        · by_cases herr : jsTruthy ps.error
          · simp [pollLoop, hq, hgs, herr] at he
            subst he
            simp [isGetStatus]
          · simp [pollLoop, hq, hgs, herr] at he
            rcases he with he | he | he
            · subst he; simp [isGetStatus]
            · subst he; simp [isDelay]
            · exact ih ps.progress e he
      · simp [pollLoop, hq] at he

/-- The polling loop records no workflow stage. -/
theorem pollLoop_stageSeq (n t i : String)
    (rs : List (Except String (HttpResponse ProcessStatus))) (p : Option ℚ) :
    stageSeq (pollLoop n t i p rs).2 = [] := by
  rw [stageSeq, List.filterMap_eq_nil_iff]
  intro e he
  rcases pollLoop_events n t i rs p e he with h | h
  · cases e <;> simp_all [isGetStatus, stageOf]
  · cases e <;> simp_all [isDelay, stageOf]

/-- The polling loop never issues an upload-start request. -/
theorem pollLoop_no_startUpload (n t i : String)
    (rs : List (Except String (HttpResponse ProcessStatus))) (p : Option ℚ)
    (b : Upload) : Event.startUpload b ∉ (pollLoop n t i p rs).2 := by
  intro hmem
  rcases pollLoop_events n t i rs p _ hmem with h | h
  · simp [isGetStatus] at h
  · simp [isDelay] at h

/-- Case analysis of the trace a run can leave: it stops after the file read,
after the credentials request, after the storage put, or it reaches the
upload-start request, in which case the credentials response had status 200,
the storage put succeeded, and everything after the four stage events comes
from the polling loop. -/
theorem upload_trace_cases (env : Env) (source name slug username token : String)
    (aw : Bool) :
    ∃ pollEvs : List Event,
      (∀ e ∈ pollEvs, isGetStatus e = true ∨ isDelay e = true) ∧
      ((upload env source name slug username token aw).2 = [.readFile] ∨
       (upload env source name slug username token aw).2 = [.readFile, .fetchCredentials] ∨
       (∃ resp : HttpResponse Credentials,
         env.credentialsResult = .ok resp ∧ resp.status = 200 ∧
         ((upload env source name slug username token aw).2 =
            [.readFile, .fetchCredentials, .putObject resp.data.bucket resp.data.key] ∨
          (env.s3Result = .ok () ∧
           (upload env source name slug username token aw).2 =
             [.readFile, .fetchCredentials, .putObject resp.data.bucket resp.data.key,
              .startUpload (mkUpload username slug name resp.data.bucket resp.data.key)]
             ++ pollEvs)))) := by
  obtain ⟨fr, cr, sr, str, pr⟩ := env
  cases fr with
  | error e => exact ⟨[], by simp, Or.inl (by simp [upload])⟩
  | ok f =>
    cases cr with
    | error e =>
      exact ⟨[], by simp, Or.inr (Or.inl (by simp [upload, fetchCredentials]))⟩
    | ok resp =>
      by_cases h200 : resp.status = 200
      · cases sr with
        | error e =>
          refine ⟨[], by simp, Or.inr (Or.inr ⟨resp, rfl, h200, Or.inl ?_⟩)⟩
          simp [upload, fetchCredentials, uploadToS3, h200]
        | ok u =>
          cases u
          cases str with
          | error e =>
            refine ⟨[], by simp, Or.inr (Or.inr ⟨resp, rfl, h200, Or.inr ⟨rfl, ?_⟩⟩)⟩
            simp [upload, fetchCredentials, uploadToS3, startUpload, h200]
          | ok resp2 =>
            by_cases h201 : resp2.status = 201
            · cases aw with
              | false =>
                refine ⟨[], by simp, Or.inr (Or.inr ⟨resp, rfl, h200, Or.inr ⟨rfl, ?_⟩⟩)⟩
                simp [upload, fetchCredentials, uploadToS3, startUpload, h200, h201]
              | true =>
                refine ⟨(pollLoop name resp2.data.tileset resp2.data.id (some 0) pr).2,
                  fun e he => pollLoop_events _ _ _ _ _ e he,
                  Or.inr (Or.inr ⟨resp, rfl, h200, Or.inr ⟨rfl, ?_⟩⟩)⟩
                cases hres : (pollLoop name resp2.data.tileset resp2.data.id (some 0) pr).1 <;>
                  simp [upload, fetchCredentials, uploadToS3, startUpload, h200, h201, hres]
            · refine ⟨[], by simp, Or.inr (Or.inr ⟨resp, rfl, h200, Or.inr ⟨rfl, ?_⟩⟩)⟩
              simp [upload, fetchCredentials, uploadToS3, startUpload, h200, h201]
      · refine ⟨[], by simp, Or.inr (Or.inl ?_)⟩
        simp [upload, fetchCredentials, h200]

/-- With progress undefined the loop guard fails at once: success, no
events. -/
theorem pollLoop_none (n t i : String)
    (rs : List (Except String (HttpResponse ProcessStatus))) :
    pollLoop n t i none rs = (.done 0 (some (doneMessage n t)), []) := by
  cases rs <;> simp [pollLoop]

/-- With progress at least 1 the loop guard fails at once: success, no
events. -/
theorem pollLoop_exit (n t i : String) (q : ℚ)
    (rs : List (Except String (HttpResponse ProcessStatus))) (h : ¬q < 1) :
    pollLoop n t i (some q) rs = (.done 0 (some (doneMessage n t)), []) := by
  cases rs <;> simp [pollLoop, h]

/-- One loop iteration on a 200 response with a truthy error field: the run
stops with outcome -1 and the failure message, after exactly this one query,
whatever responses would have followed. -/
theorem pollLoop_error_stops (n t i st : String) (ps : ProcessStatus)
    (rest : List (Except String (HttpResponse ProcessStatus))) (p : ℚ)
    (hp : p < 1) (herr : jsTruthy ps.error = true) :
    pollLoop n t i (some p) (.ok ⟨200, st, ps⟩ :: rest) =
      (.done (-1) (some (pollErrorMessage n t (ps.error.getD ""))), [.getStatus i]) := by
  simp [pollLoop, hp, getUploadStatus, herr]

/-- One loop iteration on a 200 response with a falsy error field: progress
is overwritten with the progress of the response and the loop re-enters after
the query and the fixed delay. -/
theorem pollLoop_cont (n t i st : String) (ps : ProcessStatus)
    (rest : List (Except String (HttpResponse ProcessStatus))) (p : ℚ)
    (hp : p < 1) (herr : jsTruthy ps.error = false) :
    pollLoop n t i (some p) (.ok ⟨200, st, ps⟩ :: rest) =
      ((pollLoop n t i ps.progress rest).1,
       .getStatus i :: .delayMs 1000 :: (pollLoop n t i ps.progress rest).2) := by
  simp [pollLoop, hp, getUploadStatus, herr]

/-- After any number of responses on which the loop keeps polling, the first
response with a truthy error stops the loop: outcome -1 with the failure
message, one query per consumed response and none for the rest, one delay per
response before the failing one. -/
theorem pollLoop_first_truthy_error (n t i : String) :
    ∀ (goods : List (Except String (HttpResponse ProcessStatus))) (p : ℚ), p < 1 →
    (∀ r ∈ goods, ContinuesPoll r) →
    ∀ (st : String) (ps : ProcessStatus)
      (rest : List (Except String (HttpResponse ProcessStatus))),
    jsTruthy ps.error = true →
    (pollLoop n t i (some p) (goods ++ .ok ⟨200, st, ps⟩ :: rest)).1 =
        .done (-1) (some (pollErrorMessage n t (ps.error.getD ""))) ∧
    queryCount (pollLoop n t i (some p) (goods ++ .ok ⟨200, st, ps⟩ :: rest)).2 =
      goods.length + 1 ∧
    delayCount (pollLoop n t i (some p) (goods ++ .ok ⟨200, st, ps⟩ :: rest)).2 =
      goods.length := by
  intro goods
  induction goods with
  | nil =>
    intro p hp _ st ps rest herr
    rw [List.nil_append, pollLoop_error_stops n t i st ps rest p hp herr]
    simp [queryCount, delayCount, isGetStatus, isDelay]
  | cons g gs ih =>
    intro p hp hgoods st ps rest herr
    obtain ⟨st', ps', rfl, herr', q, hq, hq1⟩ := hgoods g (List.mem_cons_self _ _)
    have hgs : ∀ r ∈ gs, ContinuesPoll r := fun r hr => hgoods r (List.mem_cons_of_mem _ hr)
    rw [List.cons_append, pollLoop_cont n t i st' ps' _ p hp herr', hq]
    obtain ⟨h1, h2, h3⟩ := ih q hq1 hgs st ps rest herr
    refine ⟨h1, ?_, ?_⟩ <;>
      simp [queryCount, delayCount, isGetStatus, isDelay] at h2 h3 ⊢ <;> omega

/-- The polling loop does not read the complete field: forcing it to false in
every supplied response changes nothing about the run. -/
theorem pollLoop_scrub (n t i : String) :
    ∀ (rs : List (Except String (HttpResponse ProcessStatus))) (p : Option ℚ),
    pollLoop n t i p (rs.map scrubResp) = pollLoop n t i p rs := by
  intro rs
  induction rs with
  | nil => intro p; rfl
  | cons r rest ih =>
    intro p
    cases p with
    | none => rfl
    | some q =>
      by_cases hq : q < 1
      · cases r with
        | error e => simp [pollLoop, hq, scrubResp, getUploadStatus]
        | ok resp =>
          by_cases h200 : resp.status = 200
          · by_cases herr : jsTruthy resp.data.error
            · simp [pollLoop, hq, scrubResp, getUploadStatus, scrubComplete, h200, herr]
            · simp [pollLoop, hq, scrubResp, getUploadStatus, scrubComplete, h200, herr, ih]
          · simp [pollLoop, hq, scrubResp, getUploadStatus, h200]
      · simp [pollLoop, hq]

/-- The whole workflow does not read the complete field of poll responses:
forcing it to false in every supplied response changes nothing about the
run. -/
theorem upload_scrub (fr : Except String String)
    (cr : Except String (HttpResponse Credentials)) (sr : Except String Unit)
    (str : Except String (HttpResponse UploadProcessing))
    (ps : List (Except String (HttpResponse ProcessStatus)))
    (source name slug username token : String) (aw : Bool) :
    upload ⟨fr, cr, sr, str, ps.map scrubResp⟩ source name slug username token aw =
      upload ⟨fr, cr, sr, str, ps⟩ source name slug username token aw := by
  cases fr with
  | error e => rfl
  | ok f =>
    cases cr with
    | error e => rfl
    | ok resp =>
      by_cases h200 : resp.status = 200
      · cases sr with
        | error e => simp [upload, fetchCredentials, uploadToS3, h200]
        | ok u =>
          cases u
          cases str with
          | error e => simp [upload, fetchCredentials, uploadToS3, startUpload, h200]
          | ok resp2 =>
            by_cases h201 : resp2.status = 201
            · cases aw with
              | false =>
                simp [upload, fetchCredentials, uploadToS3, startUpload, h200, h201]
              | true =>
                simp [upload, fetchCredentials, uploadToS3, startUpload, h200, h201,
                  pollLoop_scrub]
            · simp [upload, fetchCredentials, uploadToS3, startUpload, h200, h201]
      · simp [upload, fetchCredentials, h200]

/-! The claims. -/

/-- Claim C2 (code bug): the claim and the spec require that every storage
error abort the workflow with outcome -1 and the error surfaced verbatim, and
the rethrow on line 139 shows that is also the intent of the code; but the
Promise executor on lines 131-143 binds only resolve, so the throw in the
asynchronously invoked putObject callback cannot settle the promise and
cannot reach the outer catch.  What every run with a storage error actually
does: it hangs on the await, never returning -1 and never surfacing the
message.  The remaining half of the claim does hold: the trace ends at the
putObject call, so the upload-start request is never issued. -/
theorem claim_C2 (f st1 : String) (creds : Credentials) (e : String)
    (str : Except String (HttpResponse UploadProcessing))
    (pollR : List (Except String (HttpResponse ProcessStatus)))
    (source name slug username token : String) (aw : Bool) :
    upload ⟨.ok f, .ok ⟨200, st1, creds⟩, .error e, str, pollR⟩
        source name slug username token aw =
      (.hangs,
       [.readFile, .fetchCredentials, .putObject creds.bucket creds.key]) := by
  rfl

/-- Claim C4: for every credentials response whose HTTP status is not 200,
the workflow returns -1 and the trace ends at the credentials request: no
putObject call occurs. -/
theorem claim_C4 (f : String) (s : Nat) (stext : String) (creds : Credentials)
    (sr : Except String Unit) (str : Except String (HttpResponse UploadProcessing))
    (pollR : List (Except String (HttpResponse ProcessStatus)))
    (source name slug username token : String) (aw : Bool) (hs : s ≠ 200) :
    upload ⟨.ok f, .ok ⟨s, stext, creds⟩, sr, str, pollR⟩
        source name slug username token aw =
      (.returns (-1) (some ("Could not fetch upload credentials, status: "
          ++ toString s ++ ": " ++ stext ++ ".")),
       [.readFile, .fetchCredentials]) := by
  simp [upload, fetchCredentials, hs]

/-- Claim C4 witness: instantiation at status 404. -/
theorem claim_C4_witness :
    (404 : Nat) ≠ 200 ∧
    upload ⟨.ok "f", .ok ⟨404, "Not Found", sampleCreds⟩, .ok (), .error "unused", []⟩
        "src" "nm" "sl" "user" "tok" false =
      (.returns (-1) (some ("Could not fetch upload credentials, status: "
          ++ toString (404 : Nat) ++ ": " ++ "Not Found" ++ ".")),
       [.readFile, .fetchCredentials]) :=
  ⟨by decide,
   claim_C4 "f" 404 "Not Found" sampleCreds (.ok ()) (.error "unused") []
     "src" "nm" "sl" "user" "tok" false (by decide)⟩

/-- Claim C5: for every upload-start response whose HTTP status is not 201,
the workflow returns -1 and performs no status query: the trace ends at the
upload-start request. -/
theorem claim_C5 (f st1 : String) (creds : Credentials) (s : Nat) (stext : String)
    (proc : UploadProcessing)
    (pollR : List (Except String (HttpResponse ProcessStatus)))
    (source name slug username token : String) (aw : Bool) (hs : s ≠ 201) :
    upload ⟨.ok f, .ok ⟨200, st1, creds⟩, .ok (), .ok ⟨s, stext, proc⟩, pollR⟩
        source name slug username token aw =
      (.returns (-1) (some ("Could not start upload processing: "
          ++ toString s ++ ": " ++ stext ++ ".")),
       [.readFile, .fetchCredentials, .putObject creds.bucket creds.key,
        .startUpload (mkUpload username slug name creds.bucket creds.key)]) ∧
    queryCount (upload ⟨.ok f, .ok ⟨200, st1, creds⟩, .ok (), .ok ⟨s, stext, proc⟩, pollR⟩
        source name slug username token aw).2 = 0 := by
  constructor
  · simp [upload, fetchCredentials, uploadToS3, startUpload, hs]
  · simp [upload, fetchCredentials, uploadToS3, startUpload, hs, queryCount, isGetStatus]

/-- Claim C5 witness: instantiation at status 500. -/
theorem claim_C5_witness :
    (500 : Nat) ≠ 201 ∧
    (upload ⟨.ok "f", .ok ⟨200, "OK", sampleCreds⟩, .ok (), .ok ⟨500, "ISE", sampleProc⟩, []⟩
        "src" "nm" "sl" "user" "tok" true =
      (.returns (-1) (some ("Could not start upload processing: "
          ++ toString (500 : Nat) ++ ": " ++ "ISE" ++ ".")),
       [.readFile, .fetchCredentials, .putObject sampleCreds.bucket sampleCreds.key,
        .startUpload (mkUpload "user" "sl" "nm" sampleCreds.bucket sampleCreds.key)]) ∧
     queryCount (upload ⟨.ok "f", .ok ⟨200, "OK", sampleCreds⟩, .ok (),
        .ok ⟨500, "ISE", sampleProc⟩, []⟩ "src" "nm" "sl" "user" "tok" true).2 = 0) :=
  ⟨by decide,
   claim_C5 "f" "OK" sampleCreds 500 "ISE" sampleProc []
     "src" "nm" "sl" "user" "tok" true (by decide)⟩

/-- Claim C1 counterexample: the claim is false as stated.  Line 100 tests
the error field for JavaScript truthiness, not for null: in envC1cex the
first poll response carries the non-null error some "", which is falsy, so
the poller does not transition to Failed; the run performs a second status
query and returns 0 with the success message. -/
theorem claim_C1_counterexample :
    psEmptyError.error ≠ none ∧
    envC1cex.pollResults.head? = some (.ok ⟨200, "OK", psEmptyError⟩) ∧
    (upload envC1cex "src" "nm" "sl" "user" "tok" true).1 =
      .returns 0 (some (doneMessage "nm" "ts")) ∧
    queryCount (upload envC1cex "src" "nm" "sl" "user" "tok" true).2 = 2 :=
  ⟨by decide, rfl, rfl, rfl⟩

/-- Claim C1 (amended): for every poll response carrying a truthy error field
(non-null and non-empty, which is what line 100 tests), the status poller
stops immediately with the Failed outcome: the workflow returns -1 with the
failure message, performs no status query beyond the ones already made, and
does not retry — whatever responses would have followed.  The responses
before the failing one may be any on which the loop keeps polling. -/
theorem claim_C1 (f st1 st2 st3 : String) (creds : Credentials)
    (proc : UploadProcessing)
    (goods rest : List (Except String (HttpResponse ProcessStatus)))
    (ps : ProcessStatus) (source name slug username token : String)
    (hgoods : ∀ r ∈ goods, ContinuesPoll r) (herr : jsTruthy ps.error = true) :
    (upload ⟨.ok f, .ok ⟨200, st1, creds⟩, .ok (), .ok ⟨201, st2, proc⟩,
        goods ++ .ok ⟨200, st3, ps⟩ :: rest⟩ source name slug username token true).1 =
      .returns (-1) (some (pollErrorMessage name proc.tileset (ps.error.getD ""))) ∧
    queryCount (upload ⟨.ok f, .ok ⟨200, st1, creds⟩, .ok (), .ok ⟨201, st2, proc⟩,
        goods ++ .ok ⟨200, st3, ps⟩ :: rest⟩ source name slug username token true).2 =
      goods.length + 1 := by
  obtain ⟨h1, h2, _⟩ := pollLoop_first_truthy_error name proc.tileset proc.id goods 0
    (by norm_num) hgoods st3 ps rest herr
  constructor
  · simp [upload, fetchCredentials, uploadToS3, startUpload, h1]
  · have htr : (upload ⟨.ok f, .ok ⟨200, st1, creds⟩, .ok (), .ok ⟨201, st2, proc⟩,
        goods ++ .ok ⟨200, st3, ps⟩ :: rest⟩ source name slug username token true).2 =
        [.readFile, .fetchCredentials, .putObject creds.bucket creds.key,
         .startUpload (mkUpload username slug name creds.bucket creds.key)] ++
        (pollLoop name proc.tileset proc.id (some 0)
          (goods ++ .ok ⟨200, st3, ps⟩ :: rest)).2 := by
      simp [upload, fetchCredentials, uploadToS3, startUpload, h1]
    rw [htr, queryCount_append, h2]
    simp [queryCount, isGetStatus]

/-- One response on which the loop keeps polling: HTTP 200, null error,
progress one half. -/
def goodRespW : Except String (HttpResponse ProcessStatus) :=
  .ok ⟨200, "OK", mkPS none (some (Rat.mk' 1 2))⟩

/-- A poll-response body with a truthy (non-null, non-empty) error. -/
def psTruthyErrW : ProcessStatus := mkPS (some "boom") (some (Rat.mk' 3 4))

/-- Claim C1 witness: one continuing response, then a response with error
"boom"; the run returns -1 with the failure message after exactly two
queries. -/
theorem claim_C1_witness :
    (∀ r ∈ [goodRespW], ContinuesPoll r) ∧ jsTruthy psTruthyErrW.error = true ∧
    ((upload ⟨.ok "f", .ok ⟨200, "OK", sampleCreds⟩, .ok (), .ok ⟨201, "C", sampleProc⟩,
        [goodRespW] ++ .ok ⟨200, "OK", psTruthyErrW⟩ :: []⟩ "src" "nm" "sl" "user" "tok" true).1 =
      .returns (-1) (some (pollErrorMessage "nm" sampleProc.tileset (psTruthyErrW.error.getD ""))) ∧
     queryCount (upload ⟨.ok "f", .ok ⟨200, "OK", sampleCreds⟩, .ok (), .ok ⟨201, "C", sampleProc⟩,
        [goodRespW] ++ .ok ⟨200, "OK", psTruthyErrW⟩ :: []⟩ "src" "nm" "sl" "user" "tok" true).2 =
      [goodRespW].length + 1) := by
  have hg : ∀ r ∈ [goodRespW], ContinuesPoll r := by
    intro r hr
    rw [List.mem_singleton] at hr
    subst hr
    exact ⟨"OK", mkPS none (some (Rat.mk' 1 2)), rfl, rfl, Rat.mk' 1 2, rfl, by decide⟩
  exact ⟨hg, by decide,
    claim_C1 "f" "OK" "C" "OK" sampleCreds sampleProc [goodRespW] [] psTruthyErrW
      "src" "nm" "sl" "user" "tok" hg (by decide)⟩

/-- Claim C3: on the response sequence with progress 0.2, 0.6, 1.0 and null
errors, the run performs exactly 3 status queries, with the fixed 1000 ms
delay invoked between consecutive queries (the full trace is computed), and
returns 0; and in general, a response with a null error and progress at least
1 moves the poller to the successful exit: outcome 0 after that single query,
whatever responses would have followed. -/
theorem claim_C3 :
    ((upload env3 "src" "nm" "sl" "user" "tok" true) =
      (.returns 0 (some (doneMessage "nm" "ts")),
       [.readFile, .fetchCredentials, .putObject "bkt" "ky",
        .startUpload (mkUpload "user" "sl" "nm" "bkt" "ky"),
        .getStatus "jid", .delayMs 1000, .getStatus "jid", .delayMs 1000,
        .getStatus "jid", .delayMs 1000]) ∧
     queryCount (upload env3 "src" "nm" "sl" "user" "tok" true).2 = 3) ∧
    (∀ (n t i st : String) (ps : ProcessStatus)
       (rest : List (Except String (HttpResponse ProcessStatus))) (p q : ℚ),
     p < 1 → ps.error = none → ps.progress = some q → 1 ≤ q →
     (pollLoop n t i (some p) (.ok ⟨200, st, ps⟩ :: rest)).1 =
         .done 0 (some (doneMessage n t)) ∧
     queryCount (pollLoop n t i (some p) (.ok ⟨200, st, ps⟩ :: rest)).2 = 1) := by
  refine ⟨⟨by rfl, by rfl⟩, ?_⟩
  intro n t i st ps rest p q hp herr hprog hq
  rw [pollLoop_cont n t i st ps rest p hp (by simp [jsTruthy, herr]), hprog]
  have hnq : ¬(q < 1) := not_lt.mpr hq
  rw [pollLoop_exit n t i q rest hnq]
  constructor
  · rfl
  · simp [queryCount, isGetStatus]

/-- Claim C3 witness: the general clause instantiated at a response with null
error and progress exactly 1, starting from progress 0. -/
theorem claim_C3_witness :
    (pollLoop "n" "t" "i" (some 0) [.ok ⟨200, "OK", mkPS none (some 1)⟩]).1 =
        .done 0 (some (doneMessage "n" "t")) ∧
    queryCount (pollLoop "n" "t" "i" (some 0) [.ok ⟨200, "OK", mkPS none (some 1)⟩]).2 = 1 :=
  claim_C3.2 "n" "t" "i" "OK" (mkPS none (some 1)) [] 0 1 (by norm_num) rfl rfl le_rfl

/-- Claim C9: a poll response with a null error and an absent (undefined)
progress field makes the loop exit on its next guard check, and the workflow
reports success: outcome 0 with the success message after that single status
query, although no response with progress at least 1 was observed. -/
theorem claim_C9 (f st1 st2 st3 : String) (creds : Credentials)
    (proc : UploadProcessing) (ps : ProcessStatus)
    (rest : List (Except String (HttpResponse ProcessStatus)))
    (source name slug username token : String)
    (herr : ps.error = none) (hprog : ps.progress = none) :
    (upload ⟨.ok f, .ok ⟨200, st1, creds⟩, .ok (), .ok ⟨201, st2, proc⟩,
        .ok ⟨200, st3, ps⟩ :: rest⟩ source name slug username token true).1 =
      .returns 0 (some (doneMessage name proc.tileset)) ∧
    queryCount (upload ⟨.ok f, .ok ⟨200, st1, creds⟩, .ok (), .ok ⟨201, st2, proc⟩,
        .ok ⟨200, st3, ps⟩ :: rest⟩ source name slug username token true).2 = 1 := by
  have hloop := pollLoop_cont name proc.tileset proc.id st3 ps rest 0
    (by norm_num) (by simp [jsTruthy, herr])
  rw [hprog, pollLoop_none] at hloop
  constructor
  · simp [upload, fetchCredentials, uploadToS3, startUpload, hloop]
  · simp [upload, fetchCredentials, uploadToS3, startUpload, hloop,
      queryCount, isGetStatus]

/-- Claim C9 witness: instantiation at a response with null error and absent
progress. -/
theorem claim_C9_witness :
    (mkPS none none).error = none ∧ (mkPS none none).progress = none ∧
    ((upload ⟨.ok "f", .ok ⟨200, "OK", sampleCreds⟩, .ok (), .ok ⟨201, "C", sampleProc⟩,
        [.ok ⟨200, "OK", mkPS none none⟩]⟩ "src" "nm" "sl" "user" "tok" true).1 =
      .returns 0 (some (doneMessage "nm" sampleProc.tileset)) ∧
     queryCount (upload ⟨.ok "f", .ok ⟨200, "OK", sampleCreds⟩, .ok (), .ok ⟨201, "C", sampleProc⟩,
        [.ok ⟨200, "OK", mkPS none none⟩]⟩ "src" "nm" "sl" "user" "tok" true).2 = 1) :=
  ⟨rfl, rfl,
   claim_C9 "f" "OK" "C" "OK" sampleCreds sampleProc (mkPS none none) []
     "src" "nm" "sl" "user" "tok" rfl rfl⟩

/-- A trace of status queries and delays records no workflow stage. -/
theorem stageSeq_nil_of_poll (evs : List Event)
    (h : ∀ e ∈ evs, isGetStatus e = true ∨ isDelay e = true) : stageSeq evs = [] := by
  rw [stageSeq, List.filterMap_eq_nil_iff]
  intro e he
  rcases h e he with h1 | h1
  · cases e <;> simp_all [isGetStatus, stageOf]
  · cases e <;> simp_all [isDelay, stageOf]

/-- Claim C6: in every run, the recorded workflow stages form a prefix of
credential fetch, then storage put, then processing start — the three execute
in strict sequential order — and the processing-start request is issued only
when the storage-write call returned success. -/
theorem claim_C6 (env : Env) (source name slug username token : String) (aw : Bool) :
    stageSeq (upload env source name slug username token aw).2 ∈
      [([] : List StageKind), [.fetch], [.fetch, .put], [.fetch, .put, .start]] ∧
    (StageKind.start ∈ stageSeq (upload env source name slug username token aw).2 →
      env.s3Result = .ok ()) := by
  obtain ⟨pollEvs, hpoll, hcases⟩ := upload_trace_cases env source name slug username token aw
  have hps : stageSeq pollEvs = [] := stageSeq_nil_of_poll pollEvs hpoll
  rcases hcases with h | h | ⟨resp, _, _, h | ⟨hs3, h⟩⟩
  · rw [h]
    exact ⟨by simp [stageSeq, stageOf], fun hmem => by simp [stageSeq, stageOf] at hmem⟩
  · rw [h]
    exact ⟨by simp [stageSeq, stageOf], fun hmem => by simp [stageSeq, stageOf] at hmem⟩
  · rw [h]
    exact ⟨by simp [stageSeq, stageOf], fun hmem => by simp [stageSeq, stageOf] at hmem⟩
  · rw [h, stageSeq, List.filterMap_append, ← stageSeq, ← stageSeq, hps]
    refine ⟨by simp [stageSeq, stageOf], fun _ => hs3⟩

/-- Claim C6 witness: instantiation on the concrete success environment; the
run records all three stages in order, and its storage write succeeded. -/
theorem claim_C6_witness :
    stageSeq (upload env3 "src" "nm" "sl" "user" "tok" true).2 ∈
      [([] : List StageKind), [.fetch], [.fetch, .put], [.fetch, .put, .start]] ∧
    env3.s3Result = .ok () :=
  ⟨(claim_C6 env3 "src" "nm" "sl" "user" "tok" true).1,
   (claim_C6 env3 "src" "nm" "sl" "user" "tok" true).2 (by decide)⟩

/-- Claim C7: whenever a run issues the upload-start request, the tileset
identifier of its body is exactly the username, a dot, then the slug, with no
transformation or escaping applied to either part. -/
theorem claim_C7 (env : Env) (source name slug username token : String) (aw : Bool)
    (b : Upload)
    (hb : Event.startUpload b ∈ (upload env source name slug username token aw).2) :
    b.tileset = username ++ "." ++ slug := by
  obtain ⟨pollEvs, hpoll, hcases⟩ := upload_trace_cases env source name slug username token aw
  have hnp : Event.startUpload b ∉ pollEvs := by
    intro hmem
    rcases hpoll _ hmem with h | h <;> simp [isGetStatus, isDelay] at h
  rcases hcases with h | h | ⟨resp, _, _, h | ⟨_, h⟩⟩ <;> rw [h] at hb
  · simp at hb
  · simp at hb
  · simp at hb
  · rw [List.mem_append] at hb
    rcases hb with hb | hb
    · simp only [List.mem_cons, List.not_mem_nil, or_false] at hb
      rcases hb with hb | hb | hb | hb
      · exact absurd hb (by simp)
      · exact absurd hb (by simp)
      · exact absurd hb (by simp)
      · injection hb with hb
        subst hb
        rfl
    · exact absurd hb hnp

/-- Claim C7 witness: in the concrete success run, the body sent to the
upload-start endpoint carries the tileset user.sl. -/
theorem claim_C7_witness :
    Event.startUpload (mkUpload "user" "sl" "nm" "bkt" "ky") ∈
      (upload env3 "src" "nm" "sl" "user" "tok" true).2 ∧
    (mkUpload "user" "sl" "nm" "bkt" "ky").tileset = "user" ++ "." ++ "sl" :=
  ⟨by decide,
   claim_C7 env3 "src" "nm" "sl" "user" "tok" true
     (mkUpload "user" "sl" "nm" "bkt" "ky") (by decide)⟩

/-- Claim C8: whenever a run issues the upload-start request, the object URL
of its body is exactly http, the bucket of the fetched credentials,
.s3.amazonaws.com/, then their key — the fixed scheme and host pattern of
fileUrl. -/
theorem claim_C8 (env : Env) (resp : HttpResponse Credentials)
    (source name slug username token : String) (aw : Bool) (b : Upload)
    (hcr : env.credentialsResult = .ok resp)
    (hb : Event.startUpload b ∈ (upload env source name slug username token aw).2) :
    b.url = "http://" ++ resp.data.bucket ++ ".s3.amazonaws.com/" ++ resp.data.key := by
  obtain ⟨pollEvs, hpoll, hcases⟩ := upload_trace_cases env source name slug username token aw
  have hnp : Event.startUpload b ∉ pollEvs := by
    intro hmem
    rcases hpoll _ hmem with h | h <;> simp [isGetStatus, isDelay] at h
  rcases hcases with h | h | ⟨resp', hcr', _, h | ⟨_, h⟩⟩ <;> rw [h] at hb
  · simp at hb
  · simp at hb
  · simp at hb
  · rw [List.mem_append] at hb
    rcases hb with hb | hb
    · rw [hcr'] at hcr
      injection hcr with hcr
      subst hcr
      simp only [List.mem_cons, List.not_mem_nil, or_false] at hb
      rcases hb with hb | hb | hb | hb
      · exact absurd hb (by simp)
      · exact absurd hb (by simp)
      · exact absurd hb (by simp)
      · injection hb with hb
        subst hb
        rfl
    · exact absurd hb hnp

/-- Claim C8 witness: in the concrete success run the body URL is built from
bucket bkt and key ky. -/
theorem claim_C8_witness :
    env3.credentialsResult = .ok ⟨200, "OK", sampleCreds⟩ ∧
    Event.startUpload (mkUpload "user" "sl" "nm" "bkt" "ky") ∈
      (upload env3 "src" "nm" "sl" "user" "tok" true).2 ∧
    (mkUpload "user" "sl" "nm" "bkt" "ky").url =
      "http://" ++ sampleCreds.bucket ++ ".s3.amazonaws.com/" ++ sampleCreds.key :=
  ⟨rfl, by decide,
   claim_C8 env3 ⟨200, "OK", sampleCreds⟩ "src" "nm" "sl" "user" "tok" true
     (mkUpload "user" "sl" "nm" "bkt" "ky") rfl (by decide)⟩

/-- Claim C10: the poller never reads the complete field.  Two runs whose
environments agree everywhere and whose poll-response sequences agree except
possibly in the complete fields (they scrub to the same sequence) perform the
same number of status queries and produce the same outcome. -/
theorem claim_C10 (fr : Except String String)
    (cr : Except String (HttpResponse Credentials)) (sr : Except String Unit)
    (str : Except String (HttpResponse UploadProcessing))
    (ps ps' : List (Except String (HttpResponse ProcessStatus)))
    (source name slug username token : String) (aw : Bool)
    (h : ps.map scrubResp = ps'.map scrubResp) :
    (upload ⟨fr, cr, sr, str, ps⟩ source name slug username token aw).1 =
      (upload ⟨fr, cr, sr, str, ps'⟩ source name slug username token aw).1 ∧
    queryCount (upload ⟨fr, cr, sr, str, ps⟩ source name slug username token aw).2 =
      queryCount (upload ⟨fr, cr, sr, str, ps'⟩ source name slug username token aw).2 := by
  have key : upload ⟨fr, cr, sr, str, ps⟩ source name slug username token aw =
      upload ⟨fr, cr, sr, str, ps'⟩ source name slug username token aw := by
    calc upload ⟨fr, cr, sr, str, ps⟩ source name slug username token aw
        = upload ⟨fr, cr, sr, str, ps.map scrubResp⟩ source name slug username token aw :=
          (upload_scrub fr cr sr str ps source name slug username token aw).symm
      _ = upload ⟨fr, cr, sr, str, ps'.map scrubResp⟩ source name slug username token aw := by
          rw [h]
      _ = upload ⟨fr, cr, sr, str, ps'⟩ source name slug username token aw :=
          upload_scrub fr cr sr str ps' source name slug username token aw
  rw [key]
  exact ⟨rfl, rfl⟩

/-- Claim C10 witness: two single-response sequences that differ only in the
complete field give identical outcomes and query counts. -/
theorem claim_C10_witness :
    ([.ok ⟨200, "OK", { mkPS none (some 1) with complete := true }⟩] :
        List (Except String (HttpResponse ProcessStatus))).map scrubResp =
      ([.ok ⟨200, "OK", mkPS none (some 1)⟩] :
        List (Except String (HttpResponse ProcessStatus))).map scrubResp ∧
    ((upload ⟨.ok "f", .ok ⟨200, "OK", sampleCreds⟩, .ok (), .ok ⟨201, "C", sampleProc⟩,
        [.ok ⟨200, "OK", { mkPS none (some 1) with complete := true }⟩]⟩
        "src" "nm" "sl" "user" "tok" true).1 =
      (upload ⟨.ok "f", .ok ⟨200, "OK", sampleCreds⟩, .ok (), .ok ⟨201, "C", sampleProc⟩,
        [.ok ⟨200, "OK", mkPS none (some 1)⟩]⟩ "src" "nm" "sl" "user" "tok" true).1 ∧
     queryCount (upload ⟨.ok "f", .ok ⟨200, "OK", sampleCreds⟩, .ok (),
        .ok ⟨201, "C", sampleProc⟩,
        [.ok ⟨200, "OK", { mkPS none (some 1) with complete := true }⟩]⟩
        "src" "nm" "sl" "user" "tok" true).2 =
      queryCount (upload ⟨.ok "f", .ok ⟨200, "OK", sampleCreds⟩, .ok (),
        .ok ⟨201, "C", sampleProc⟩,
        [.ok ⟨200, "OK", mkPS none (some 1)⟩]⟩ "src" "nm" "sl" "user" "tok" true).2) :=
  ⟨rfl,
   claim_C10 (.ok "f") (.ok ⟨200, "OK", sampleCreds⟩) (.ok ()) (.ok ⟨201, "C", sampleProc⟩)
     [.ok ⟨200, "OK", { mkPS none (some 1) with complete := true }⟩]
     [.ok ⟨200, "OK", mkPS none (some 1)⟩]
     "src" "nm" "sl" "user" "tok" true rfl⟩

end MapboxUtils
